import Mathlib

/-!
# Verification of `neutron_lbaas/drivers/common/agent_driver_base.py`

A shallow embedding of the agent-based load-balancer plugin driver:
the per-resource managers (`LoadBalancerManager`, `ListenerManager`,
`PoolManager`, `MemberManager`, `HealthMonitorManager`), the agent
health-monitoring poll (`_check_agents_states`), the rescheduling batch
(`_reschedule_instances`), the initialization guards
(`_setup_agent_monitoring_on_plugin`, `_set_callbacks_on_plugin`) and
the owning-agent lookup (`get_loadbalancer_agent`).

Side effects (RPC casts to agents, database deletions, provisioning
status updates, warning logs) are recorded in a chronological trace of
`Effect`s; the Registry (`plugin.db`) state is threaded explicitly as a
`DB` value.  External collaborators (the pluggable placement policy's
`schedule` / `reschedule`, the Registry's liveness computation
`is_eligible_agent`) are parameters of the operations, with their
Registry effects modelled from the spec where their code is not part of
this repository.
-/

/-- An LBaaS agent record as returned by the Registry: identity, host, and
the Registry-computed liveness bit (`is_eligible_agent`). -/
structure Agent where
  id : Nat
  host : Nat
  alive : Bool
deriving DecidableEq, Repr

/-- Resource kinds handled by the per-resource managers. -/
inductive ResourceKind where
  | loadbalancer
  | listener
  | pool
  | member
  | healthmonitor
deriving DecidableEq, Repr

/-- One-way RPC casts of `LoadBalancerAgentApi`, addressed to a host. -/
inductive Notification where
  | createLoadbalancer (lbId hostId driverName : Nat)
  | deleteLoadbalancer (lbId hostId : Nat)
  | createListener (rid hostId : Nat)
  | deleteListener (rid hostId : Nat)
  | createPool (rid hostId : Nat)
  | deletePool (rid hostId : Nat)
  | createMember (rid hostId : Nat)
  | deleteMember (rid hostId : Nat)
  | createHealthmonitor (rid hostId : Nat)
  | deleteHealthmonitor (rid hostId : Nat)
  | instanceAdded (lbId hostId : Nat)
  | instanceRemoved (lbId hostId : Nat)
deriving DecidableEq, Repr

/-- Observable side effects, recorded in chronological order. `baseCreate`
and `baseDelete` mark the delegated `super().create` / `super().delete`
calls into `driver_base`; the `dbDelete*` constructors are the explicit
`plugin.db.delete_*` Registry deletions; `rescheduleInstancesCalled`
marks the call site of `_reschedule_instances`. -/
inductive Effect where
  | baseCreate (kind : ResourceKind) (rid : Nat)
  | baseDelete (kind : ResourceKind) (rid : Nat)
  | dbDeleteLoadbalancer (rid : Nat)
  | dbDeleteListener (rid : Nat)
  | dbDeletePool (rid : Nat)
  | dbDeleteMember (rid : Nat)
  | dbDeleteHealthmonitor (rid : Nat)
  | updateProvisioningStatus (lbId : Nat)
  | notify (n : Notification)
  | logWarningInactive (agentId hostId : Nat)
  | rescheduleInstancesCalled (agentId : Nat)
  | logCannotReschedule (lbId : Nat)
deriving DecidableEq, Repr

/-- Errors raised by this driver layer: `NoEligibleLbaasAgent` from the
create-scheduling path and `NoActiveLbaasAgent` from
`get_loadbalancer_agent`. -/
inductive LbError where
  | noEligibleAgent (lbId : Nat)
  | noActiveAgent (lbId : Nat)
deriving DecidableEq, Repr

/-- The Registry (`plugin.db`) state visible to this driver: the
loadbalancer-to-hosting-agent assignment, the in-memory Active-Agent Set
(`plugin.db.active_agents`), and the stored resource records. -/
structure DB where
  hosting : List (Nat × Agent)
  active_agents : List Nat
  loadbalancers : List Nat
  listeners : List Nat
  pools : List Nat
  members : List Nat
  healthmonitors : List Nat
deriving DecidableEq, Repr

/-- First-match association lookup used for Registry assignment queries. -/
def lookupA : List (Nat × Agent) → Nat → Option Agent
  | [], _ => none
  | (k, v) :: rest, i => if k = i then some v else lookupA rest i

/-- `plugin.db.get_agent_hosting_loadbalancer`: the agent currently
hosting a loadbalancer, if any. -/
def get_agent_hosting_loadbalancer (db : DB) (lbId : Nat) : Option Agent :=
  lookupA db.hosting lbId

/-- Replace a loadbalancer's hosting assignment in the Registry.
Modelled from the spec: the pluggable Placement Policy's `schedule` and
`reschedule` (not under `src/`) record the new assignment in the
Registry when they return an agent ("Workload-to-Agent assignment is
created by Placement Policy during `schedule`, replaced by
`reschedule`"). -/
def setHosting (db : DB) (lbId : Nat) (a : Agent) : DB :=
  { db with hosting := (lbId, a) :: db.hosting.filter (fun p => p.1 ≠ lbId) }

/-- `plugin.db.list_loadbalancers_on_lbaas_agent`: ids of loadbalancers
assigned to the given agent, in Registry order. -/
def list_loadbalancers_on_lbaas_agent (db : DB) (agentId : Nat) : List Nat :=
  (db.hosting.filter (fun p => p.2.id = agentId)).map (fun p => p.1)

/-- `AgentDriverBase.get_loadbalancer_agent` (lines 419-425): queries the
Registry for the hosting agent; raises `NoActiveLbaasAgent` when the
Registry reports none; otherwise returns the agent record. -/
def get_loadbalancer_agent (db : DB) (lbId : Nat) : Except LbError Agent :=
  match get_agent_hosting_loadbalancer db lbId with
  | none => Except.error (LbError.noActiveAgent lbId)
  | some a => Except.ok a

/-- Python truthiness of the agent record returned by
`get_loadbalancer_agent`: it is a dict with identity and host entries,
hence nonempty and truthy, so `if agent:` tests on it succeed. -/
def Agent.truthy (_ : Agent) : Bool := true

/-- Result of a manager create/update/delete call: final Registry state,
chronological trace of effects, and the uncaught `LbError`, if any. -/
structure CrudResult where
  db : DB
  trace : List Effect
  err : Option LbError
deriving DecidableEq, Repr

/-- Result of a monitoring-poll or reschedule-batch step: final Registry
state, chronological trace, and whether an uncaught collaborator
exception propagated out (aborting the rest of the step). -/
structure PollResult where
  db : DB
  trace : List Effect
  aborted : Bool
deriving DecidableEq, Repr

/-! ## Resource data, with the owning-chain of the source
(`pool.listener.loadbalancer`, `member.pool.listener.loadbalancer`). -/

structure Loadbalancer where
  id : Nat
deriving DecidableEq, Repr

structure Listener where
  id : Nat
  loadbalancer : Loadbalancer
deriving DecidableEq, Repr

structure Pool where
  id : Nat
  listener : Listener
deriving DecidableEq, Repr

structure Member where
  id : Nat
  pool : Pool
deriving DecidableEq, Repr

structure HealthMonitor where
  id : Nat
  pool : Pool
deriving DecidableEq, Repr

/-! ## Manager operations

Each manager's `create` first runs the delegated base-class call, then
resolves the owning loadbalancer's agent with `get_loadbalancer_agent`
(whose `NoActiveLbaasAgent` propagates), then casts the
`create_<kind>` notification.  The delegated base-class persistence is
modelled from the spec ("persist resource (delegated)"): `baseCreate`
adds the resource record; the delegated `delete` call is status
bookkeeping recorded as the `baseDelete` marker, the Registry deletion
being the explicit `plugin.db.delete_*` call that follows in `delete`. -/

/-- `LoadBalancerManager.create` (lines 175-184): delegated persist, then
`loadbalancer_scheduler.schedule`; if no agent is returned raise
`NoEligibleLbaasAgent`, else cast `create_loadbalancer` to the chosen
agent's host with the device-driver name.  The `schedule` collaborator
is a parameter; its Registry effect on success is `setHosting`
(modelled from the spec). -/
def LoadBalancerManager_create (db : DB) (lb : Loadbalancer)
    (schedule : Loadbalancer → Option Agent) (driverName : Nat) : CrudResult :=
  let db1 := { db with loadbalancers := lb.id :: db.loadbalancers }
  match schedule lb with
  | none =>
      ⟨db1, [Effect.baseCreate ResourceKind.loadbalancer lb.id],
        some (LbError.noEligibleAgent lb.id)⟩
  | some ag =>
      ⟨setHosting db1 lb.id ag,
        [Effect.baseCreate ResourceKind.loadbalancer lb.id,
         Effect.notify (Notification.createLoadbalancer lb.id ag.host driverName)],
        none⟩

/-- `LoadBalancerManager.delete` (lines 186-195): delegated base call,
resolve the hosting agent (raises `NoActiveLbaasAgent` if none), delete
the loadbalancer from the Registry, and — guarded by `if agent:` — cast
`delete_loadbalancer` to the agent's host. -/
def LoadBalancerManager_delete (db : DB) (lbId : Nat) : CrudResult :=
  match get_loadbalancer_agent db lbId with
  | Except.error e =>
      ⟨db, [Effect.baseDelete ResourceKind.loadbalancer lbId], some e⟩
  | Except.ok agent =>
      let db1 := { db with loadbalancers := db.loadbalancers.erase lbId }
      if agent.truthy then
        ⟨db1, [Effect.baseDelete ResourceKind.loadbalancer lbId,
               Effect.dbDeleteLoadbalancer lbId,
               Effect.notify (Notification.deleteLoadbalancer lbId agent.host)],
          none⟩
      else
        ⟨db1, [Effect.baseDelete ResourceKind.loadbalancer lbId,
               Effect.dbDeleteLoadbalancer lbId], none⟩

/-- `ListenerManager.create` (lines 214-218). -/
def ListenerManager_create (db : DB) (l : Listener) : CrudResult :=
  let db1 := { db with listeners := l.id :: db.listeners }
  match get_loadbalancer_agent db1 l.loadbalancer.id with
  | Except.error e => ⟨db1, [Effect.baseCreate ResourceKind.listener l.id], some e⟩
  | Except.ok agent =>
      ⟨db1, [Effect.baseCreate ResourceKind.listener l.id,
             Effect.notify (Notification.createListener l.id agent.host)], none⟩

/-- `ListenerManager.delete` (lines 220-230): delegated base call, resolve
agent (raises), delete listener from Registry, update the owning
loadbalancer's provisioning status, cast `delete_listener`. -/
def ListenerManager_delete (db : DB) (l : Listener) : CrudResult :=
  match get_loadbalancer_agent db l.loadbalancer.id with
  | Except.error e => ⟨db, [Effect.baseDelete ResourceKind.listener l.id], some e⟩
  | Except.ok agent =>
      ⟨{ db with listeners := db.listeners.erase l.id },
        [Effect.baseDelete ResourceKind.listener l.id,
         Effect.dbDeleteListener l.id,
         Effect.updateProvisioningStatus l.loadbalancer.id,
         Effect.notify (Notification.deleteListener l.id agent.host)], none⟩

/-- `PoolManager.create` (lines 242-246).  The source calls
`super(PoolManager, self).delete(context, pool)` here — the delegated
base-class *delete* path, not the create path — then resolves the agent
and casts `create_pool`. -/
def PoolManager_create (db : DB) (p : Pool) : CrudResult :=
  match get_loadbalancer_agent db p.listener.loadbalancer.id with
  | Except.error e => ⟨db, [Effect.baseDelete ResourceKind.pool p.id], some e⟩
  | Except.ok agent =>
      ⟨db, [Effect.baseDelete ResourceKind.pool p.id,
            Effect.notify (Notification.createPool p.id agent.host)], none⟩

/-- `PoolManager.delete` (lines 248-258). -/
def PoolManager_delete (db : DB) (p : Pool) : CrudResult :=
  match get_loadbalancer_agent db p.listener.loadbalancer.id with
  | Except.error e => ⟨db, [Effect.baseDelete ResourceKind.pool p.id], some e⟩
  | Except.ok agent =>
      ⟨{ db with pools := db.pools.erase p.id },
        [Effect.baseDelete ResourceKind.pool p.id,
         Effect.dbDeletePool p.id,
         Effect.updateProvisioningStatus p.listener.loadbalancer.id,
         Effect.notify (Notification.deletePool p.id agent.host)], none⟩

/-- `MemberManager.create` (lines 270-274). -/
def MemberManager_create (db : DB) (m : Member) : CrudResult :=
  let db1 := { db with members := m.id :: db.members }
  match get_loadbalancer_agent db1 m.pool.listener.loadbalancer.id with
  | Except.error e => ⟨db1, [Effect.baseCreate ResourceKind.member m.id], some e⟩
  | Except.ok agent =>
      ⟨db1, [Effect.baseCreate ResourceKind.member m.id,
             Effect.notify (Notification.createMember m.id agent.host)], none⟩

/-- `MemberManager.delete` (lines 276-286). -/
def MemberManager_delete (db : DB) (m : Member) : CrudResult :=
  match get_loadbalancer_agent db m.pool.listener.loadbalancer.id with
  | Except.error e => ⟨db, [Effect.baseDelete ResourceKind.member m.id], some e⟩
  | Except.ok agent =>
      ⟨{ db with members := db.members.erase m.id },
        [Effect.baseDelete ResourceKind.member m.id,
         Effect.dbDeleteMember m.id,
         Effect.updateProvisioningStatus m.pool.listener.loadbalancer.id,
         Effect.notify (Notification.deleteMember m.id agent.host)], none⟩

/-- `HealthMonitorManager.create` (lines 299-304). -/
def HealthMonitorManager_create (db : DB) (h : HealthMonitor) : CrudResult :=
  let db1 := { db with healthmonitors := h.id :: db.healthmonitors }
  match get_loadbalancer_agent db1 h.pool.listener.loadbalancer.id with
  | Except.error e =>
      ⟨db1, [Effect.baseCreate ResourceKind.healthmonitor h.id], some e⟩
  | Except.ok agent =>
      ⟨db1, [Effect.baseCreate ResourceKind.healthmonitor h.id,
             Effect.notify (Notification.createHealthmonitor h.id agent.host)], none⟩

/-- `HealthMonitorManager.delete` (lines 306-317). -/
def HealthMonitorManager_delete (db : DB) (h : HealthMonitor) : CrudResult :=
  match get_loadbalancer_agent db h.pool.listener.loadbalancer.id with
  | Except.error e =>
      ⟨db, [Effect.baseDelete ResourceKind.healthmonitor h.id], some e⟩
  | Except.ok agent =>
      ⟨{ db with healthmonitors := db.healthmonitors.erase h.id },
        [Effect.baseDelete ResourceKind.healthmonitor h.id,
         Effect.dbDeleteHealthmonitor h.id,
         Effect.updateProvisioningStatus h.pool.listener.loadbalancer.id,
         Effect.notify (Notification.deleteHealthmonitor h.id agent.host)], none⟩

/-! ## Rescheduling batch and monitoring poll

The `reschedule` collaborator is a parameter `Nat → Except Unit (Option
Agent)`: `Except.error ()` models an uncaught collaborator exception
(the source has no `try` around the loop body, so it propagates and
aborts the batch); `Except.ok (some a)` a successful reassignment (the
policy records the new assignment, modelled by `setHosting`);
`Except.ok none` a declined/pinned workload. -/

/-- Loop body of `AgentDriverBase._reschedule_instances` (lines 389-401)
over the list of loadbalancer ids computed up front. -/
def reschedule_go (oldAgent : Agent) (resched : Nat → Except Unit (Option Agent)) :
    DB → List Nat → PollResult
  | db, [] => ⟨db, [], false⟩
  | db, lbId :: rest =>
    match resched lbId with
    | Except.error _ => ⟨db, [], true⟩
    | Except.ok none =>
        let r := reschedule_go oldAgent resched db rest
        ⟨r.db, Effect.logCannotReschedule lbId :: r.trace, r.aborted⟩
    | Except.ok (some newAgent) =>
        let r := reschedule_go oldAgent resched (setHosting db lbId newAgent) rest
        ⟨r.db,
          Effect.notify (Notification.instanceAdded lbId newAgent.host) ::
          Effect.notify (Notification.instanceRemoved lbId oldAgent.host) :: r.trace,
          r.aborted⟩

/-- `AgentDriverBase._reschedule_instances` (lines 383-401): list the
loadbalancers hosted by the failed agent, then for each one call the
policy's `reschedule`; on success cast `instance_added` to the new host
then `instance_removed` to the failed agent's host; on a declined
workload log a warning; an uncaught exception aborts the batch. -/
def reschedule_instances (db : DB) (agent : Agent)
    (resched : Nat → Except Unit (Option Agent)) : PollResult :=
  reschedule_go agent resched db (list_loadbalancers_on_lbaas_agent db agent.id)

/-- Loop body of `AgentDriverBase._check_agents_states` (lines 366-381)
over the agent roster, with each agent's `alive` field standing for the
Registry's `is_eligible_agent` computation. -/
def check_go (resched : Nat → Except Unit (Option Agent)) :
    DB → List Agent → PollResult
  | db, [] => ⟨db, [], false⟩
  | db, a :: rest =>
    if a.alive = false ∧ a.id ∈ db.active_agents then
      let db1 := { db with active_agents := db.active_agents.erase a.id }
      let r1 := reschedule_instances db1 a resched
      let hd := Effect.logWarningInactive a.id a.host ::
                Effect.rescheduleInstancesCalled a.id :: r1.trace
      if r1.aborted then ⟨r1.db, hd, true⟩
      else
        let r2 := check_go resched r1.db rest
        ⟨r2.db, hd ++ r2.trace, r2.aborted⟩
    else if a.alive = true ∧ a.id ∉ db.active_agents then
      check_go resched { db with active_agents := a.id :: db.active_agents } rest
    else
      check_go resched db rest

/-- `AgentDriverBase._check_agents_states` (lines 366-381): for each
agent in the roster, on an active-to-inactive transition remove it from
the Active-Agent Set, log a warning, and invoke `_reschedule_instances`;
on an inactive-to-active transition just add it to the set. -/
def check_agents_states (db : DB) (agents : List Agent)
    (resched : Nat → Except Unit (Option Agent)) : PollResult :=
  check_go resched db agents

/-! ## Driver initialization guards -/

/-- Process state relevant to the initialization guards: which attributes
exist on the plugin object and on its `db` object, and counters of the
re-runnable effects (Active-Agent Set resets, monitor loops started,
RPC consumers created). -/
structure Plugin where
  agent_monitoring_attr : Bool
  agent_callbacks_attr : Bool
  db_agent_monitoring_attr : Bool
  agent_endpoints_attr : Bool
  active_agents_resets : Nat
  monitor_loops_started : Nat
  consumers_created : Nat
deriving DecidableEq, Repr

/-- `AgentDriverBase._setup_agent_monitoring_on_plugin` (lines 352-364):
returns early when `hasattr(self.plugin, 'agent_monitoring')`; otherwise
resets `plugin.db.active_agents` to the empty set and, when the
configured interval is nonzero, stores the looping call as
`plugin.db.agent_monitoring` (an attribute of `plugin.db`, not of
`plugin`) and starts it. -/
def setup_agent_monitoring_on_plugin (p : Plugin) (interval : Nat) : Plugin :=
  if p.agent_monitoring_attr then p
  else
    let p1 := { p with active_agents_resets := p.active_agents_resets + 1 }
    if interval ≠ 0 then
      { p1 with db_agent_monitoring_attr := true,
                monitor_loops_started := p1.monitor_loops_started + 1 }
    else p1

/-- `AgentDriverBase._set_callbacks_on_plugin` (lines 403-417): returns
early when `hasattr(self.plugin, 'agent_callbacks')`; otherwise sets
`plugin.agent_endpoints`, creates an RPC connection and consumer, and
starts consuming. -/
def set_callbacks_on_plugin (p : Plugin) : Plugin :=
  if p.agent_callbacks_attr then p
  else
    { p with agent_endpoints_attr := true,
             consumers_created := p.consumers_created + 1 }

/-- The initialization steps of `AgentDriverBase.__init__` relevant to
idempotence, in source order: `_set_callbacks_on_plugin` (line 339) then
`_setup_agent_monitoring_on_plugin` (line 350). -/
def driver_init (p : Plugin) (interval : Nat) : Plugin :=
  setup_agent_monitoring_on_plugin (set_callbacks_on_plugin p) interval

/-- A process before any driver has been constructed: no guard attribute
set, no loop or consumer running. -/
def freshPlugin : Plugin := ⟨false, false, false, false, 0, 0, 0⟩

/-! ## Concrete states used as counterexamples and witnesses -/

/-- A Registry holding loadbalancer 3 (with listener 7) that no agent is
currently hosting. -/
def c1Db : DB := ⟨[], [], [3], [7], [], [], []⟩

/-- C1 counterexample: with no agent hosting loadbalancer 3, deleting
listener 7 raises `NoActiveLbaasAgent` and performs no local deletion —
the listener stays in the Registry and the provisioning status is not
updated, contradicting the claim that local deletion still proceeds. -/
theorem listener_delete_no_agent_counterexample :
    (ListenerManager_delete c1Db ⟨7, ⟨3⟩⟩).err = some (LbError.noActiveAgent 3) ∧
    (ListenerManager_delete c1Db ⟨7, ⟨3⟩⟩).db.listeners = [7] ∧
    Effect.dbDeleteListener 7 ∉ (ListenerManager_delete c1Db ⟨7, ⟨3⟩⟩).trace ∧
    Effect.updateProvisioningStatus 3 ∉ (ListenerManager_delete c1Db ⟨7, ⟨3⟩⟩).trace := by
  decide

/-- C1 (amended): for every delete operation (listener, pool, member,
health monitor, loadbalancer) whose owning loadbalancer has no hosting
agent, `get_loadbalancer_agent` raises `NoActiveLbaasAgent` before any
local deletion: the Registry is unchanged, no provisioning-status update
happens, and no delete notification is sent. -/
theorem delete_no_active_agent_raises_before_local_deletion
    (db : DB) (lbId lid pid mid hid : Nat)
    (hno : get_agent_hosting_loadbalancer db lbId = none) :
    ListenerManager_delete db ⟨lid, ⟨lbId⟩⟩ =
      ⟨db, [Effect.baseDelete ResourceKind.listener lid],
        some (LbError.noActiveAgent lbId)⟩ ∧
    PoolManager_delete db ⟨pid, ⟨lid, ⟨lbId⟩⟩⟩ =
      ⟨db, [Effect.baseDelete ResourceKind.pool pid],
        some (LbError.noActiveAgent lbId)⟩ ∧
    MemberManager_delete db ⟨mid, ⟨pid, ⟨lid, ⟨lbId⟩⟩⟩⟩ =
      ⟨db, [Effect.baseDelete ResourceKind.member mid],
        some (LbError.noActiveAgent lbId)⟩ ∧
    HealthMonitorManager_delete db ⟨hid, ⟨pid, ⟨lid, ⟨lbId⟩⟩⟩⟩ =
      ⟨db, [Effect.baseDelete ResourceKind.healthmonitor hid],
        some (LbError.noActiveAgent lbId)⟩ ∧
    LoadBalancerManager_delete db lbId =
      ⟨db, [Effect.baseDelete ResourceKind.loadbalancer lbId],
        some (LbError.noActiveAgent lbId)⟩ := by
  have he : get_loadbalancer_agent db lbId =
      Except.error (LbError.noActiveAgent lbId) := by
    simp [get_loadbalancer_agent, hno]
  refine ⟨?_, ?_, ?_, ?_, ?_⟩ <;>
    simp [ListenerManager_delete, PoolManager_delete, MemberManager_delete,
      HealthMonitorManager_delete, LoadBalancerManager_delete, he]

/-- Witness for the amended C1 theorem at the concrete Registry `c1Db`. -/
theorem delete_no_active_agent_raises_witness :
    ListenerManager_delete c1Db ⟨7, ⟨3⟩⟩ =
      ⟨c1Db, [Effect.baseDelete ResourceKind.listener 7],
        some (LbError.noActiveAgent 3)⟩ :=
  (delete_no_active_agent_raises_before_local_deletion c1Db 3 7 0 0 0 (by decide)).1

/-- An active agent (id 1, host 9) hosting loadbalancer 3. -/
def c2Agent : Agent := ⟨1, 9, true⟩

/-- A Registry where agent `c2Agent` hosts loadbalancer 3 (listener 7). -/
def c2Db : DB := ⟨[(3, c2Agent)], [1], [3], [7], [], [], []⟩

/-- C2: creating pool 5 runs the delegated base-class *delete* path, not
the create path (`PoolManager.create` calls `super().delete` at line
243), even though the operation otherwise succeeds and casts
`create_pool` to the hosting agent. -/
theorem pool_create_invokes_base_delete_path :
    Effect.baseDelete ResourceKind.pool 5 ∈
      (PoolManager_create c2Db ⟨5, ⟨7, ⟨3⟩⟩⟩).trace ∧
    Effect.baseCreate ResourceKind.pool 5 ∉
      (PoolManager_create c2Db ⟨5, ⟨7, ⟨3⟩⟩⟩).trace ∧
    (PoolManager_create c2Db ⟨5, ⟨7, ⟨3⟩⟩⟩).err = none ∧
    Effect.notify (Notification.createPool 5 9) ∈
      (PoolManager_create c2Db ⟨5, ⟨7, ⟨3⟩⟩⟩).trace := by
  decide

/-- C3: initializing the driver twice against the same fresh plugin is
not idempotent — the second initialization re-runs both setup steps, so
two monitor loops are started, two consumers are created, and the
Active-Agent Set is reset twice; the guarded attributes never become
true on `plugin` because the code sets them elsewhere. -/
theorem driver_init_twice_duplicates_setup :
    (driver_init (driver_init freshPlugin 10) 10).monitor_loops_started = 2 ∧
    (driver_init (driver_init freshPlugin 10) 10).consumers_created = 2 ∧
    (driver_init (driver_init freshPlugin 10) 10).active_agents_resets = 2 ∧
    (driver_init (driver_init freshPlugin 10) 10).agent_monitoring_attr = false ∧
    (driver_init (driver_init freshPlugin 10) 10).agent_callbacks_attr = false := by
  decide

/-! ## Helper lemmas about the reschedule batch -/

/-- The reschedule batch never touches the Active-Agent Set. -/
theorem reschedule_go_active_agents (agent : Agent)
    (resched : Nat → Except Unit (Option Agent)) :
    ∀ (lbs : List Nat) (db : DB),
      (reschedule_go agent resched db lbs).db.active_agents = db.active_agents := by
  intro lbs
  induction lbs with
  | nil => intro db; rfl
  | cons lbId rest ih =>
    intro db
    cases hr : resched lbId with
    | error e => simp [reschedule_go, hr]
    | ok oa =>
      cases oa with
      | none => simp [reschedule_go, hr, ih]
      | some na => simp [reschedule_go, hr, ih, setHosting]

/-- With a reschedule collaborator that never raises, the batch runs to
completion. -/
theorem reschedule_go_not_aborted (agent : Agent)
    (resched : Nat → Except Unit (Option Agent))
    (hok : ∀ u, resched u ≠ Except.error ()) :
    ∀ (lbs : List Nat) (db : DB),
      (reschedule_go agent resched db lbs).aborted = false := by
  intro lbs
  induction lbs with
  | nil => intro db; rfl
  | cons lbId rest ih =>
    intro db
    cases hr : resched lbId with
    | error e => cases e; exact absurd hr (hok lbId)
    | ok oa =>
      cases oa with
      | none => simp [reschedule_go, hr, ih]
      | some na => simp [reschedule_go, hr, ih]

/-- The reschedule batch emits no `_reschedule_instances` call markers of
its own (they are emitted only by the monitoring poll). -/
theorem reschedule_go_no_call_markers (agent : Agent)
    (resched : Nat → Except Unit (Option Agent)) (aid : Nat) :
    ∀ (lbs : List Nat) (db : DB),
      Effect.rescheduleInstancesCalled aid ∉ (reschedule_go agent resched db lbs).trace := by
  intro lbs
  induction lbs with
  | nil => intro db; simp [reschedule_go]
  | cons lbId rest ih =>
    intro db
    cases hr : resched lbId with
    | error e => simp [reschedule_go, hr]
    | ok oa =>
      cases oa with
      | none => simp [reschedule_go, hr, ih]
      | some na => simp [reschedule_go, hr, ih]

/-- The loadbalancer id a trace entry of the reschedule batch is about,
if any. -/
def Effect.aboutLb : Effect → Option Nat
  | Effect.notify (Notification.instanceAdded i _) => some i
  | Effect.notify (Notification.instanceRemoved i _) => some i
  | Effect.logCannotReschedule i => some i
  | _ => none

/-- When the collaborator raises on workload `w` after succeeding on the
prefix `l1` of the batch, the batch aborts and its whole trace concerns
only workloads of `l1`. -/
theorem reschedule_go_abort_spec (agent : Agent)
    (resched : Nat → Except Unit (Option Agent)) (w : Nat) (l2 : List Nat)
    (herr : resched w = Except.error ()) :
    ∀ (l1 : List Nat) (db : DB), (∀ u ∈ l1, resched u ≠ Except.error ()) →
      (reschedule_go agent resched db (l1 ++ w :: l2)).aborted = true ∧
      ∀ x ∈ (reschedule_go agent resched db (l1 ++ w :: l2)).trace,
        ∃ u ∈ l1, Effect.aboutLb x = some u := by
  intro l1
  induction l1 with
  | nil =>
    intro db _
    simp [reschedule_go, herr]
  | cons u l1' ih =>
    intro db hok
    have hu : resched u ≠ Except.error () := hok u (List.mem_cons_self u l1')
    have hok' : ∀ v ∈ l1', resched v ≠ Except.error () :=
      fun v hv => hok v (List.mem_cons_of_mem u hv)
    cases hr : resched u with
    | error e => cases e; exact absurd hr hu
    | ok oa =>
      cases oa with
      | none =>
        have htail := ih db hok'
        constructor
        · simp [reschedule_go, hr, htail.1]
        · intro x hx
          simp only [List.cons_append, reschedule_go, hr, List.mem_cons] at hx
          rcases hx with rfl | hx
          · exact ⟨u, List.mem_cons_self u l1', rfl⟩
          · obtain ⟨v, hv, hav⟩ := htail.2 x hx
            exact ⟨v, List.mem_cons_of_mem u hv, hav⟩
      | some na =>
        have htail := ih (setHosting db u na) hok'
        constructor
        · simp [reschedule_go, hr, htail.1]
        · intro x hx
          simp only [List.cons_append, reschedule_go, hr, List.mem_cons] at hx
          rcases hx with rfl | rfl | hx
          · exact ⟨u, List.mem_cons_self u l1', rfl⟩
          · exact ⟨u, List.mem_cons_self u l1', rfl⟩
          · obtain ⟨v, hv, hav⟩ := htail.2 x hx
            exact ⟨v, List.mem_cons_of_mem u hv, hav⟩

/-- C4 (amended): during a reschedule batch for a failed agent, a
collaborator failure while rescheduling one workload aborts the batch:
the exception propagates, and no workload beyond the already-processed
prefix is touched — no ownership-change notification and no warning is
emitted for any workload outside that prefix. -/
theorem reschedule_failure_aborts_batch (db : DB) (agent : Agent)
    (resched : Nat → Except Unit (Option Agent)) (l1 : List Nat) (w : Nat)
    (l2 : List Nat)
    (hlist : list_loadbalancers_on_lbaas_agent db agent.id = l1 ++ w :: l2)
    (hok : ∀ u ∈ l1, resched u ≠ Except.error ())
    (herr : resched w = Except.error ()) :
    (reschedule_instances db agent resched).aborted = true ∧
    ∀ v, v ∉ l1 →
      (∀ h, Effect.notify (Notification.instanceAdded v h) ∉
          (reschedule_instances db agent resched).trace) ∧
      (∀ h, Effect.notify (Notification.instanceRemoved v h) ∉
          (reschedule_instances db agent resched).trace) ∧
      Effect.logCannotReschedule v ∉ (reschedule_instances db agent resched).trace := by
  have hspec := reschedule_go_abort_spec agent resched w l2 herr l1 db hok
  rw [reschedule_instances, hlist] at *
  refine ⟨hspec.1, ?_⟩
  intro v hv
  refine ⟨?_, ?_, ?_⟩
  · intro h hmem
    obtain ⟨u2, hu2, hab⟩ := hspec.2 _ hmem
    simp [Effect.aboutLb] at hab
    exact hv (hab ▸ hu2)
  · intro h hmem
    obtain ⟨u2, hu2, hab⟩ := hspec.2 _ hmem
    simp [Effect.aboutLb] at hab
    exact hv (hab ▸ hu2)
  · intro hmem
    obtain ⟨u2, hu2, hab⟩ := hspec.2 _ hmem
    simp [Effect.aboutLb] at hab
    exact hv (hab ▸ hu2)

/-- The failed agent (id 1, host 9) of the C4 scenario. -/
def c4AgentA : Agent := ⟨1, 9, false⟩

/-- An eligible replacement agent (id 2, host 8). -/
def c4AgentB : Agent := ⟨2, 8, true⟩

/-- A Registry where the failed agent hosts loadbalancers 10 and 11. -/
def c4Db : DB := ⟨[(10, c4AgentA), (11, c4AgentA)], [1, 2], [10, 11], [], [], [], []⟩

/-- A reschedule collaborator that raises on workload 10 and would
succeed on any other workload. -/
def c4Resched : Nat → Except Unit (Option Agent) :=
  fun w => if w = 10 then Except.error () else Except.ok (some c4AgentB)

/-- C4 counterexample: with loadbalancers 10 and 11 both hosted by the
failed agent and a collaborator that raises on 10, the batch aborts with
an empty trace — workload 11 is not processed (no notification, no
warning), contradicting the claim that per-workload failures are
isolated and logged. -/
theorem reschedule_failure_counterexample :
    reschedule_instances c4Db c4AgentA c4Resched = ⟨c4Db, [], true⟩ := by
  decide

/-- Witness for the amended C4 theorem at the concrete C4 scenario. -/
theorem reschedule_failure_aborts_batch_witness :
    (reschedule_instances c4Db c4AgentA c4Resched).aborted = true ∧
    Effect.logCannotReschedule 11 ∉ (reschedule_instances c4Db c4AgentA c4Resched).trace := by
  have h := reschedule_failure_aborts_batch c4Db c4AgentA c4Resched [] 10 [11]
    (by decide) (by intro u hu; exact absurd hu (List.not_mem_nil u)) rfl
  exact ⟨h.1, (h.2 11 (by decide)).2.2⟩

/-! ## Notification ordering within the reschedule batch -/

/-- Scans a trace left to right and reports whether, for workload `w`,
no `instance_removed` occurs before the first `instance_added` (`seen`
carries whether an `instance_added` for `w` has already occurred). -/
def addedPrecedesRemoved (w : Nat) : Bool → List Effect → Bool
  | _, [] => true
  | seen, Effect.notify (Notification.instanceAdded i _) :: rest =>
      addedPrecedesRemoved w (if i = w then true else seen) rest
  | seen, Effect.notify (Notification.instanceRemoved i _) :: rest =>
      if i = w ∧ seen = false then false
      else addedPrecedesRemoved w seen rest
  | seen, _ :: rest => addedPrecedesRemoved w seen rest

/-- In every trace of the reschedule batch loop, each `instance_removed`
for a workload is preceded by an `instance_added` for it. -/
theorem addedPrecedesRemoved_reschedule_go (agent : Agent)
    (resched : Nat → Except Unit (Option Agent)) (w : Nat) :
    ∀ (lbs : List Nat) (db : DB) (seen : Bool),
      addedPrecedesRemoved w seen (reschedule_go agent resched db lbs).trace = true := by
  intro lbs
  induction lbs with
  | nil => intro db seen; rfl
  | cons lbId rest ih =>
    intro db seen
    cases hr : resched lbId with
    | error e => simp [reschedule_go, hr, addedPrecedesRemoved]
    | ok oa =>
      cases oa with
      | none =>
        rcases eq_or_ne lbId w with rfl | hw
        · simp [reschedule_go, hr, addedPrecedesRemoved, ih]
        · simp [reschedule_go, hr, addedPrecedesRemoved, hw, ih]
      | some na =>
        rcases eq_or_ne lbId w with rfl | hw
        · simp [reschedule_go, hr, addedPrecedesRemoved, ih]
        · simp [reschedule_go, hr, addedPrecedesRemoved, hw, ih]

/-- Every `instance_removed` the reschedule batch emits is addressed to
the failed agent's host. -/
theorem reschedule_go_removed_to_old_host (agent : Agent)
    (resched : Nat → Except Unit (Option Agent)) :
    ∀ (lbs : List Nat) (db : DB) (w h : Nat),
      Effect.notify (Notification.instanceRemoved w h) ∈
        (reschedule_go agent resched db lbs).trace → h = agent.host := by
  intro lbs
  induction lbs with
  | nil => intro db w h hmem; simp [reschedule_go] at hmem
  | cons lbId rest ih =>
    intro db w h hmem
    cases hr : resched lbId with
    | error e => simp [reschedule_go, hr] at hmem
    | ok oa =>
      cases oa with
      | none =>
        simp only [reschedule_go, hr, List.mem_cons] at hmem
        rcases hmem with hmem | hmem
        · cases hmem
        · exact ih db w h hmem
      | some na =>
        simp only [reschedule_go, hr, List.mem_cons] at hmem
        rcases hmem with hmem | hmem | hmem
        · cases hmem
        · cases hmem; rfl
        · exact ih (setHosting db lbId na) w h hmem

/-- Every `instance_added` the reschedule batch emits is addressed to the
host of the agent the placement policy returned for that workload. -/
theorem reschedule_go_added_to_new_host (agent : Agent)
    (resched : Nat → Except Unit (Option Agent)) :
    ∀ (lbs : List Nat) (db : DB) (w h : Nat),
      Effect.notify (Notification.instanceAdded w h) ∈
        (reschedule_go agent resched db lbs).trace →
      ∃ na, resched w = Except.ok (some na) ∧ h = na.host := by
  intro lbs
  induction lbs with
  | nil => intro db w h hmem; simp [reschedule_go] at hmem
  | cons lbId rest ih =>
    intro db w h hmem
    cases hr : resched lbId with
    | error e => simp [reschedule_go, hr] at hmem
    | ok oa =>
      cases oa with
      | none =>
        simp only [reschedule_go, hr, List.mem_cons] at hmem
        rcases hmem with hmem | hmem
        · cases hmem
        · exact ih db w h hmem
      | some na =>
        simp only [reschedule_go, hr, List.mem_cons] at hmem
        rcases hmem with hmem | hmem | hmem
        · cases hmem; exact ⟨na, hr, rfl⟩
        · cases hmem
        · exact ih (setHosting db lbId na) w h hmem

/-- If the batch reaches a workload the policy reassigns (no earlier
collaborator failure), it emits both the `instance_added` cast to the
new agent's host and the `instance_removed` cast to the failed agent's
host for that workload. -/
theorem reschedule_go_success_emits (agent : Agent)
    (resched : Nat → Except Unit (Option Agent)) (w : Nat) (na : Agent)
    (hw : resched w = Except.ok (some na))
    (hok : ∀ u, resched u ≠ Except.error ()) :
    ∀ (lbs : List Nat) (db : DB), w ∈ lbs →
      Effect.notify (Notification.instanceAdded w na.host) ∈
        (reschedule_go agent resched db lbs).trace ∧
      Effect.notify (Notification.instanceRemoved w agent.host) ∈
        (reschedule_go agent resched db lbs).trace := by
  intro lbs
  induction lbs with
  | nil => intro db hmem; cases hmem
  | cons lbId rest ih =>
    intro db hmem
    rcases List.mem_cons.mp hmem with rfl | hmem2
    · refine ⟨?_, ?_⟩
      · simp only [reschedule_go, hw]
        exact List.mem_cons_self _ _
      · simp only [reschedule_go, hw]
        exact List.mem_cons_of_mem _ (List.mem_cons_self _ _)
    · cases hr : resched lbId with
      | error e => cases e; exact absurd hr (hok lbId)
      | ok oa =>
        cases oa with
        | none =>
          have ht := ih db hmem2
          refine ⟨?_, ?_⟩
          · simp only [reschedule_go, hr, List.mem_cons]
            exact Or.inr ht.1
          · simp only [reschedule_go, hr, List.mem_cons]
            exact Or.inr ht.2
        | some na2 =>
          have ht := ih (setHosting db lbId na2) hmem2
          refine ⟨?_, ?_⟩
          · simp only [reschedule_go, hr, List.mem_cons]
            exact Or.inr (Or.inr ht.1)
          · simp only [reschedule_go, hr, List.mem_cons]
            exact Or.inr (Or.inr ht.2)

/-- C5: for every workload of the batch that the placement policy
successfully reassigns (under a collaborator that does not raise, so
the batch reaches every workload), the batch actually emits the
`instance_added` cast to the new agent's host and the `instance_removed`
cast to the old (failed) agent's host, and the `instance_added` is
emitted strictly before the `instance_removed` (no `instance_removed`
for the workload occurs before its first `instance_added`); moreover
every `instance_removed` in the trace targets the failed agent's host
and every `instance_added` targets the host the policy returned. -/
theorem reschedule_added_before_removed (db : DB) (agent : Agent)
    (resched : Nat → Except Unit (Option Agent)) (w : Nat) (na : Agent)
    (hw : resched w = Except.ok (some na))
    (hok : ∀ u, resched u ≠ Except.error ())
    (hmem : w ∈ list_loadbalancers_on_lbaas_agent db agent.id) :
    Effect.notify (Notification.instanceAdded w na.host) ∈
      (reschedule_instances db agent resched).trace ∧
    Effect.notify (Notification.instanceRemoved w agent.host) ∈
      (reschedule_instances db agent resched).trace ∧
    addedPrecedesRemoved w false (reschedule_instances db agent resched).trace = true ∧
    (∀ w2 h, Effect.notify (Notification.instanceRemoved w2 h) ∈
        (reschedule_instances db agent resched).trace → h = agent.host) ∧
    (∀ w2 h, Effect.notify (Notification.instanceAdded w2 h) ∈
        (reschedule_instances db agent resched).trace →
      ∃ na2, resched w2 = Except.ok (some na2) ∧ h = na2.host) := by
  have hemit := reschedule_go_success_emits agent resched w na hw hok
    (list_loadbalancers_on_lbaas_agent db agent.id) db hmem
  refine ⟨hemit.1, hemit.2, ?_, ?_, ?_⟩
  · exact addedPrecedesRemoved_reschedule_go agent resched w _ db false
  · intro w2 h hmem2
    exact reschedule_go_removed_to_old_host agent resched _ db w2 h hmem2
  · intro w2 h hmem2
    exact reschedule_go_added_to_new_host agent resched _ db w2 h hmem2

/-- The failed agent of the C5 scenario (id 1, host 9). -/
def c5AgentOld : Agent := ⟨1, 9, false⟩

/-- The replacement agent of the C5 scenario (id 2, host 8). -/
def c5AgentNew : Agent := ⟨2, 8, true⟩

/-- Registry for the C5 scenario: the failed agent hosts loadbalancer 10. -/
def c5Db : DB := ⟨[(10, c5AgentOld)], [1, 2], [10], [], [], [], []⟩

/-- A reschedule collaborator that reassigns every workload to the
replacement agent. -/
def c5Resched : Nat → Except Unit (Option Agent) :=
  fun _ => Except.ok (some c5AgentNew)

/-- Witness for the C5 theorem at the concrete scenario: both casts for
workload 10 are emitted (added to host 8, removed to host 9) and the
`instance_added` precedes the `instance_removed`. -/
theorem reschedule_added_before_removed_witness :
    Effect.notify (Notification.instanceAdded 10 8) ∈
      (reschedule_instances c5Db c5AgentOld c5Resched).trace ∧
    Effect.notify (Notification.instanceRemoved 10 9) ∈
      (reschedule_instances c5Db c5AgentOld c5Resched).trace ∧
    addedPrecedesRemoved 10 false
      (reschedule_instances c5Db c5AgentOld c5Resched).trace = true := by
  have h := reschedule_added_before_removed c5Db c5AgentOld c5Resched 10 c5AgentNew
    rfl (fun u hu => by simp [c5Resched] at hu) (by decide)
  exact ⟨h.1, h.2.1, h.2.2.1⟩

/-! ## Create-scheduling path -/

/-- C7: when the placement policy's `schedule` returns no agent for a new
loadbalancer, `create` fails with `NoEligibleLbaasAgent`, the workload
stays unassigned in the Registry, and no notification of any verb is
sent — in particular the failure occurs before any create notification. -/
theorem loadbalancer_create_no_eligible_agent (db : DB) (lb : Loadbalancer)
    (schedule : Loadbalancer → Option Agent) (driverName : Nat)
    (hs : schedule lb = none)
    (hun : get_agent_hosting_loadbalancer db lb.id = none) :
    (LoadBalancerManager_create db lb schedule driverName).err =
      some (LbError.noEligibleAgent lb.id) ∧
    get_agent_hosting_loadbalancer
      (LoadBalancerManager_create db lb schedule driverName).db lb.id = none ∧
    ∀ n, Effect.notify n ∉ (LoadBalancerManager_create db lb schedule driverName).trace := by
  refine ⟨?_, ?_, ?_⟩
  · simp [LoadBalancerManager_create, hs]
  · simpa [LoadBalancerManager_create, hs, get_agent_hosting_loadbalancer] using hun
  · intro n
    simp [LoadBalancerManager_create, hs]

/-- An empty Registry with no agents at all. -/
def c7Db : DB := ⟨[], [], [], [], [], [], []⟩

/-- A placement policy with zero active agents available: `schedule`
returns no agent for every workload. -/
def c7Schedule : Loadbalancer → Option Agent := fun _ => none

/-- Witness for the C7 theorem: creating workload 2 with zero active
agents fails with `NoEligibleLbaasAgent` and leaves it unassigned. -/
theorem loadbalancer_create_no_eligible_agent_witness :
    (LoadBalancerManager_create c7Db ⟨2⟩ c7Schedule 0).err =
      some (LbError.noEligibleAgent 2) ∧
    get_agent_hosting_loadbalancer
      (LoadBalancerManager_create c7Db ⟨2⟩ c7Schedule 0).db 2 = none := by
  have h := loadbalancer_create_no_eligible_agent c7Db ⟨2⟩ c7Schedule 0 rfl rfl
  exact ⟨h.1, h.2.1⟩

/-! ## Frame lemmas for declined workloads -/

/-- Dropping the entries of one key from an association list does not
change the lookup of a different key. -/
theorem lookupA_filter_ne (w lbId : Nat) (hne : lbId ≠ w) :
    ∀ l : List (Nat × Agent),
      lookupA (l.filter (fun p => p.1 ≠ lbId)) w = lookupA l w := by
  intro l
  induction l with
  | nil => rfl
  | cons p rest ih =>
    obtain ⟨k, v⟩ := p
    rw [List.filter_cons]
    by_cases hk : k = lbId
    · rw [if_neg (by simp [hk])]
      rw [ih]
      simp only [lookupA]
      rw [if_neg (show ¬k = w from fun hEq => hne (hk.symm.trans hEq))]
    · rw [if_pos (by simp [hk])]
      simp only [lookupA]
      rw [ih]

/-- Reassigning one loadbalancer does not change the hosting lookup of a
different loadbalancer. -/
theorem get_agent_hosting_setHosting_ne (db : DB) (lbId : Nat) (na : Agent)
    (w : Nat) (hne : lbId ≠ w) :
    get_agent_hosting_loadbalancer (setHosting db lbId na) w =
      get_agent_hosting_loadbalancer db w := by
  show lookupA ((lbId, na) :: db.hosting.filter (fun p => p.1 ≠ lbId)) w =
    lookupA db.hosting w
  simp only [lookupA]
  rw [if_neg hne, lookupA_filter_ne w lbId hne db.hosting]

/-- A workload the policy declines to move is untouched by the batch: its
hosting assignment is unchanged and no ownership-change notification
names it. -/
theorem reschedule_go_declined_frame (agent : Agent)
    (resched : Nat → Except Unit (Option Agent)) (w : Nat)
    (hw : resched w = Except.ok none) :
    ∀ (lbs : List Nat) (db : DB),
      get_agent_hosting_loadbalancer (reschedule_go agent resched db lbs).db w =
        get_agent_hosting_loadbalancer db w ∧
      (∀ h, Effect.notify (Notification.instanceAdded w h) ∉
          (reschedule_go agent resched db lbs).trace) ∧
      (∀ h, Effect.notify (Notification.instanceRemoved w h) ∉
          (reschedule_go agent resched db lbs).trace) := by
  intro lbs
  induction lbs with
  | nil => intro db; simp [reschedule_go]
  | cons lbId rest ih =>
    intro db
    cases hr : resched lbId with
    | error e => simp [reschedule_go, hr]
    | ok oa =>
      cases oa with
      | none =>
        have ht := ih db
        refine ⟨?_, ?_, ?_⟩
        · simp only [reschedule_go, hr]
          exact ht.1
        · intro h
          have := ht.2.1 h
          simp [reschedule_go, hr, List.mem_cons, this]
        · intro h
          have := ht.2.2 h
          simp [reschedule_go, hr, List.mem_cons, this]
      | some na =>
        have hne : lbId ≠ w := by
          intro hEq
          rw [hEq, hw] at hr
          cases hr
        have ht := ih (setHosting db lbId na)
        refine ⟨?_, ?_, ?_⟩
        · simp only [reschedule_go, hr]
          rw [ht.1, get_agent_hosting_setHosting_ne db lbId na w hne]
        · intro h
          have := ht.2.1 h
          simp [reschedule_go, hr, List.mem_cons, this, hne.symm]
        · intro h
          have := ht.2.2 h
          simp [reschedule_go, hr, List.mem_cons, this, hne.symm]

/-- If the batch reaches a declined workload (no earlier collaborator
failure), it logs the cannot-reschedule warning naming that workload. -/
theorem reschedule_go_declined_logged (agent : Agent)
    (resched : Nat → Except Unit (Option Agent)) (w : Nat)
    (hw : resched w = Except.ok none)
    (hok : ∀ u, resched u ≠ Except.error ()) :
    ∀ (lbs : List Nat) (db : DB), w ∈ lbs →
      Effect.logCannotReschedule w ∈ (reschedule_go agent resched db lbs).trace := by
  intro lbs
  induction lbs with
  | nil => intro db hmem; cases hmem
  | cons lbId rest ih =>
    intro db hmem
    rcases List.mem_cons.mp hmem with rfl | hmem2
    · simp [reschedule_go, hw]
    · cases hr : resched lbId with
      | error e => cases e; exact absurd hr (hok lbId)
      | ok oa =>
        cases oa with
        | none =>
          simp only [reschedule_go, hr, List.mem_cons]
          exact Or.inr (ih db hmem2)
        | some na =>
          simp only [reschedule_go, hr, List.mem_cons]
          exact Or.inr (Or.inr (ih (setHosting db lbId na) hmem2))

/-- C8: for every workload in a reschedule batch for which the placement
policy returns no eligible agent (a pinned workload included), the batch
leaves that workload's Registry assignment unchanged, emits no
`instance_added` or `instance_removed` naming it, and logs a warning
naming it. -/
theorem reschedule_declined_leaves_assignment (db : DB) (agent : Agent)
    (resched : Nat → Except Unit (Option Agent)) (w : Nat)
    (hw : resched w = Except.ok none)
    (hok : ∀ u, resched u ≠ Except.error ())
    (hmem : w ∈ list_loadbalancers_on_lbaas_agent db agent.id) :
    get_agent_hosting_loadbalancer (reschedule_instances db agent resched).db w =
      get_agent_hosting_loadbalancer db w ∧
    (∀ h, Effect.notify (Notification.instanceAdded w h) ∉
        (reschedule_instances db agent resched).trace) ∧
    (∀ h, Effect.notify (Notification.instanceRemoved w h) ∉
        (reschedule_instances db agent resched).trace) ∧
    Effect.logCannotReschedule w ∈ (reschedule_instances db agent resched).trace := by
  have hframe := reschedule_go_declined_frame agent resched w hw
    (list_loadbalancers_on_lbaas_agent db agent.id) db
  have hlog := reschedule_go_declined_logged agent resched w hw hok
    (list_loadbalancers_on_lbaas_agent db agent.id) db hmem
  exact ⟨hframe.1, hframe.2.1, hframe.2.2, hlog⟩

/-- The failed agent of the C8 scenario (id 1, host 9). -/
def c8Agent : Agent := ⟨1, 9, false⟩

/-- Registry for the C8 scenario: the failed agent hosts loadbalancer 10. -/
def c8Db : DB := ⟨[(10, c8Agent)], [1], [10], [], [], [], []⟩

/-- A reschedule collaborator that declines every workload (e.g. all
pinned, or no other eligible agent). -/
def c8Resched : Nat → Except Unit (Option Agent) := fun _ => Except.ok none

/-- Witness for the C8 theorem: with every workload declined, workload
10's assignment is unchanged and the warning naming it is logged. -/
theorem reschedule_declined_leaves_assignment_witness :
    get_agent_hosting_loadbalancer
      (reschedule_instances c8Db c8Agent c8Resched).db 10 =
      get_agent_hosting_loadbalancer c8Db 10 ∧
    Effect.logCannotReschedule 10 ∈
      (reschedule_instances c8Db c8Agent c8Resched).trace := by
  have h := reschedule_declined_leaves_assignment c8Db c8Agent c8Resched 10 rfl
    (fun u hu => by simp [c8Resched] at hu) (by decide)
  exact ⟨h.1, h.2.2.2⟩

/-! ## Totality of the owning-agent lookup -/

/-- C10: `get_loadbalancer_agent` either returns the hosting agent record
(exactly when the Registry reports one) or raises `NoActiveLbaasAgent`
(exactly when the Registry reports none) — it never returns a none-like
value; consequently, in the loadbalancer delete operation, whenever the
Registry deletion executes the delete notification to the hosting
agent's host is also sent, so the agent-absent guard after the deletion
is unreachable. -/
theorem get_loadbalancer_agent_total_and_delete_notifies (db : DB) (lbId : Nat) :
    ((get_loadbalancer_agent db lbId = Except.error (LbError.noActiveAgent lbId)) ↔
       get_agent_hosting_loadbalancer db lbId = none) ∧
    (∀ a, get_loadbalancer_agent db lbId = Except.ok a ↔
       get_agent_hosting_loadbalancer db lbId = some a) ∧
    (∀ a, get_agent_hosting_loadbalancer db lbId = some a →
       Effect.dbDeleteLoadbalancer lbId ∈ (LoadBalancerManager_delete db lbId).trace ∧
       Effect.notify (Notification.deleteLoadbalancer lbId a.host) ∈
         (LoadBalancerManager_delete db lbId).trace) ∧
    (Effect.dbDeleteLoadbalancer lbId ∈ (LoadBalancerManager_delete db lbId).trace →
       ∃ h2, Effect.notify (Notification.deleteLoadbalancer lbId h2) ∈
         (LoadBalancerManager_delete db lbId).trace) := by
  cases hh : get_agent_hosting_loadbalancer db lbId with
  | none =>
    refine ⟨?_, ?_, ?_, ?_⟩
    · simp [get_loadbalancer_agent, hh]
    · intro a; simp [get_loadbalancer_agent, hh]
    · intro a ha
      simp at ha
    · intro hmem
      simp [LoadBalancerManager_delete, get_loadbalancer_agent, hh] at hmem
  | some a0 =>
    refine ⟨?_, ?_, ?_, ?_⟩
    · simp [get_loadbalancer_agent, hh]
    · intro a; simp [get_loadbalancer_agent, hh]
    · intro a ha
      have haa : a0 = a := Option.some.inj ha
      subst haa
      simp [LoadBalancerManager_delete, get_loadbalancer_agent, hh, Agent.truthy]
    · intro hmem
      refine ⟨a0.host, ?_⟩
      simp [LoadBalancerManager_delete, get_loadbalancer_agent, hh, Agent.truthy]

/-- The hosting agent of the C10 scenario (id 1, host 9). -/
def c10Agent : Agent := ⟨1, 9, true⟩

/-- Registry for the C10 scenario: the agent hosts loadbalancer 3. -/
def c10Db : DB := ⟨[(3, c10Agent)], [1], [3], [], [], [], []⟩

/-- Witness for the C10 theorem: deleting hosted loadbalancer 3 performs
the Registry deletion and sends the delete notification to host 9. -/
theorem get_loadbalancer_agent_total_witness :
    Effect.dbDeleteLoadbalancer 3 ∈ (LoadBalancerManager_delete c10Db 3).trace ∧
    Effect.notify (Notification.deleteLoadbalancer 3 9) ∈
      (LoadBalancerManager_delete c10Db 3).trace :=
  (get_loadbalancer_agent_total_and_delete_notifies c10Db 3).2.2.1 c10Agent rfl

/-! ## The monitoring poll: transition detection -/

/-- Whether an effect is the `_reschedule_instances` call marker for the
given agent id. -/
def isCallFor (aid : Nat) : Effect → Bool
  | Effect.rescheduleInstancesCalled i => decide (i = aid)
  | _ => false

/-- Number of `_reschedule_instances` invocations for the given agent
recorded in a trace. -/
def countCalls (aid : Nat) (tr : List Effect) : Nat :=
  (tr.filter (isCallFor aid)).length

/-- `countCalls` over a cons. -/
theorem countCalls_cons (aid : Nat) (x : Effect) (tr : List Effect) :
    countCalls aid (x :: tr) =
      (if isCallFor aid x then 1 else 0) + countCalls aid tr := by
  by_cases h : isCallFor aid x = true
  · simp [countCalls, List.filter_cons, h, Nat.add_comm]
  · simp [countCalls, List.filter_cons, h]

/-- `countCalls` over an append. -/
theorem countCalls_append (aid : Nat) (t1 t2 : List Effect) :
    countCalls aid (t1 ++ t2) = countCalls aid t1 + countCalls aid t2 := by
  simp [countCalls, List.filter_append]

/-- The reschedule batch records no `_reschedule_instances` call markers. -/
theorem countCalls_reschedule_go (agent : Agent)
    (resched : Nat → Except Unit (Option Agent)) (aid : Nat) :
    ∀ (lbs : List Nat) (db : DB),
      countCalls aid (reschedule_go agent resched db lbs).trace = 0 := by
  intro lbs
  induction lbs with
  | nil => intro db; rfl
  | cons lbId rest ih =>
    intro db
    cases hr : resched lbId with
    | error e => simp [reschedule_go, hr, countCalls]
    | ok oa =>
      cases oa with
      | none => simp [reschedule_go, hr, countCalls_cons, isCallFor, ih]
      | some na => simp [reschedule_go, hr, countCalls_cons, isCallFor, ih]

/-- Restatement of `countCalls_reschedule_go` for `_reschedule_instances`. -/
theorem countCalls_reschedule_instances (db : DB) (agent : Agent)
    (resched : Nat → Except Unit (Option Agent)) (aid : Nat) :
    countCalls aid (reschedule_instances db agent resched).trace = 0 :=
  countCalls_reschedule_go agent resched aid _ db

/-- Restatement of `reschedule_go_active_agents` for
`_reschedule_instances`. -/
theorem reschedule_instances_active_agents (db : DB) (agent : Agent)
    (resched : Nat → Except Unit (Option Agent)) :
    (reschedule_instances db agent resched).db.active_agents = db.active_agents :=
  reschedule_go_active_agents agent resched _ db

/-- Restatement of `reschedule_go_not_aborted` for
`_reschedule_instances`. -/
theorem reschedule_instances_not_aborted (db : DB) (agent : Agent)
    (resched : Nat → Except Unit (Option Agent))
    (hok : ∀ u, resched u ≠ Except.error ()) :
    (reschedule_instances db agent resched).aborted = false :=
  reschedule_go_not_aborted agent resched hok _ db

/-- One poll step on an agent with an active-to-inactive transition:
the set loses the agent id, the warning and the call marker are logged,
the batch trace follows, and the poll continues on the rest. -/
theorem check_go_cons_inactive (resched : Nat → Except Unit (Option Agent))
    (db : DB) (a : Agent) (rest : List Agent)
    (h1 : a.alive = false ∧ a.id ∈ db.active_agents)
    (hnab : (reschedule_instances
      { db with active_agents := db.active_agents.erase a.id } a resched).aborted = false) :
    (check_go resched db (a :: rest)).db =
      (check_go resched (reschedule_instances
        { db with active_agents := db.active_agents.erase a.id } a resched).db rest).db ∧
    (check_go resched db (a :: rest)).trace =
      Effect.logWarningInactive a.id a.host ::
      Effect.rescheduleInstancesCalled a.id ::
      ((reschedule_instances
          { db with active_agents := db.active_agents.erase a.id } a resched).trace ++
       (check_go resched (reschedule_instances
          { db with active_agents := db.active_agents.erase a.id } a resched).db rest).trace) := by
  constructor <;>
  · simp only [check_go]
    rw [if_pos h1]
    simp [hnab]

/-- One poll step on an agent with an inactive-to-active transition: the
only change is adding the agent id to the Active-Agent Set. -/
theorem check_go_cons_active (resched : Nat → Except Unit (Option Agent))
    (db : DB) (a : Agent) (rest : List Agent)
    (h2 : a.alive = true ∧ a.id ∉ db.active_agents) :
    check_go resched db (a :: rest) =
      check_go resched { db with active_agents := a.id :: db.active_agents } rest := by
  simp only [check_go]
  rw [if_neg (by simp [h2.1]), if_pos h2]

/-- One poll step on an agent with no transition does nothing. -/
theorem check_go_cons_skip (resched : Nat → Except Unit (Option Agent))
    (db : DB) (a : Agent) (rest : List Agent)
    (hn1 : ¬(a.alive = false ∧ a.id ∈ db.active_agents))
    (hn2 : ¬(a.alive = true ∧ a.id ∉ db.active_agents)) :
    check_go resched db (a :: rest) = check_go resched db rest := by
  simp only [check_go]
  rw [if_neg hn1, if_neg hn2]

/-- Processing a roster of agents none of which carries the given id
neither changes whether that id is in the Active-Agent Set nor invokes
`_reschedule_instances` for it. -/
theorem check_go_frame (resched : Nat → Except Unit (Option Agent))
    (hok : ∀ u, resched u ≠ Except.error ()) (aid : Nat) :
    ∀ (l : List Agent) (db : DB), (∀ b ∈ l, b.id ≠ aid) →
      ((aid ∈ (check_go resched db l).db.active_agents ↔ aid ∈ db.active_agents) ∧
       countCalls aid (check_go resched db l).trace = 0) := by
  intro l
  induction l with
  | nil => intro db _; exact ⟨Iff.rfl, rfl⟩
  | cons b rest ih =>
    intro db hb
    have hbid : b.id ≠ aid := hb b (List.mem_cons_self b rest)
    have hrest : ∀ c ∈ rest, c.id ≠ aid := fun c hc => hb c (List.mem_cons_of_mem b hc)
    by_cases h1 : b.alive = false ∧ b.id ∈ db.active_agents
    · have hnab := reschedule_instances_not_aborted
        { db with active_agents := db.active_agents.erase b.id } b resched hok
      obtain ⟨hdb, htr⟩ := check_go_cons_inactive resched db b rest h1 hnab
      have hr1 := reschedule_instances_active_agents
        { db with active_agents := db.active_agents.erase b.id } b resched
      have hih := ih (reschedule_instances
        { db with active_agents := db.active_agents.erase b.id } b resched).db hrest
      constructor
      · rw [hdb, hih.1, hr1]
        exact List.mem_erase_of_ne (Ne.symm hbid)
      · rw [htr, countCalls_cons, countCalls_cons, countCalls_append,
          countCalls_reschedule_instances, hih.2]
        simp [isCallFor, hbid]
    · by_cases h2 : b.alive = true ∧ b.id ∉ db.active_agents
      · rw [check_go_cons_active resched db b rest h2]
        have hih := ih { db with active_agents := b.id :: db.active_agents } hrest
        constructor
        · rw [hih.1]
          simp [List.mem_cons, Ne.symm hbid]
        · exact hih.2
      · rw [check_go_cons_skip resched db b rest h1 h2]
        exact ih db hrest

/-- Core of the C6 claim, by induction over the roster prefix before the
transitioning agent. -/
theorem check_go_inactive_once (resched : Nat → Except Unit (Option Agent))
    (hok : ∀ u, resched u ≠ Except.error ()) (a : Agent) (post : List Agent)
    (halive : a.alive = false) (hpost : ∀ b ∈ post, b.id ≠ a.id) :
    ∀ (pre : List Agent) (db : DB), db.active_agents.Nodup →
      (∀ b ∈ pre, b.id ≠ a.id) →
      ((a.id ∈ db.active_agents →
          a.id ∉ (check_go resched db (pre ++ a :: post)).db.active_agents ∧
          countCalls a.id (check_go resched db (pre ++ a :: post)).trace = 1) ∧
       (a.id ∉ db.active_agents →
          a.id ∉ (check_go resched db (pre ++ a :: post)).db.active_agents ∧
          countCalls a.id (check_go resched db (pre ++ a :: post)).trace = 0)) := by
  intro pre
  induction pre with
  | nil =>
    intro db hnd _
    rw [List.nil_append]
    constructor
    · intro hmem
      have hnab := reschedule_instances_not_aborted
        { db with active_agents := db.active_agents.erase a.id } a resched hok
      obtain ⟨hdb, htr⟩ := check_go_cons_inactive resched db a post ⟨halive, hmem⟩ hnab
      have hr1 := reschedule_instances_active_agents
        { db with active_agents := db.active_agents.erase a.id } a resched
      have hframe := check_go_frame resched hok a.id post
        (reschedule_instances
          { db with active_agents := db.active_agents.erase a.id } a resched).db hpost
      constructor
      · rw [hdb]
        intro hcon
        have h2 := hframe.1.mp hcon
        rw [hr1] at h2
        exact hnd.not_mem_erase h2
      · rw [htr, countCalls_cons, countCalls_cons, countCalls_append,
          countCalls_reschedule_instances, hframe.2]
        simp [isCallFor]
    · intro hnmem
      have hn1 : ¬(a.alive = false ∧ a.id ∈ db.active_agents) := fun h => hnmem h.2
      have hn2 : ¬(a.alive = true ∧ a.id ∉ db.active_agents) := fun h => by
        rw [halive] at h
        exact absurd h.1 (by decide)
      rw [check_go_cons_skip resched db a post hn1 hn2]
      have hframe := check_go_frame resched hok a.id post db hpost
      exact ⟨fun hcon => hnmem (hframe.1.mp hcon), hframe.2⟩
  | cons b pre2 ih =>
    intro db hnd hpre
    have hbid : b.id ≠ a.id := hpre b (List.mem_cons_self b pre2)
    have hpre2 : ∀ c ∈ pre2, c.id ≠ a.id := fun c hc => hpre c (List.mem_cons_of_mem b hc)
    rw [List.cons_append]
    by_cases h1 : b.alive = false ∧ b.id ∈ db.active_agents
    · have hnab := reschedule_instances_not_aborted
        { db with active_agents := db.active_agents.erase b.id } b resched hok
      obtain ⟨hdb, htr⟩ :=
        check_go_cons_inactive resched db b (pre2 ++ a :: post) h1 hnab
      have hr1 := reschedule_instances_active_agents
        { db with active_agents := db.active_agents.erase b.id } b resched
      have hnd2 : (reschedule_instances
          { db with active_agents := db.active_agents.erase b.id } b resched).db.active_agents.Nodup := by
        rw [hr1]; exact hnd.erase b.id
      have hih := ih (reschedule_instances
        { db with active_agents := db.active_agents.erase b.id } b resched).db hnd2 hpre2
      have hmemiff : a.id ∈ (reschedule_instances
          { db with active_agents := db.active_agents.erase b.id } b resched).db.active_agents ↔
          a.id ∈ db.active_agents := by
        rw [hr1]; exact List.mem_erase_of_ne (Ne.symm hbid)
      constructor
      · intro hmem
        have h := hih.1 (hmemiff.mpr hmem)
        refine ⟨by rw [hdb]; exact h.1, ?_⟩
        rw [htr, countCalls_cons, countCalls_cons, countCalls_append,
          countCalls_reschedule_instances, h.2]
        simp [isCallFor, hbid]
      · intro hnmem
        have h := hih.2 (fun hcon => hnmem (hmemiff.mp hcon))
        refine ⟨by rw [hdb]; exact h.1, ?_⟩
        rw [htr, countCalls_cons, countCalls_cons, countCalls_append,
          countCalls_reschedule_instances, h.2]
        simp [isCallFor, hbid]
    · by_cases h2 : b.alive = true ∧ b.id ∉ db.active_agents
      · rw [check_go_cons_active resched db b (pre2 ++ a :: post) h2]
        have hnd2 : ({ db with active_agents := b.id :: db.active_agents } : DB).active_agents.Nodup :=
          List.nodup_cons.mpr ⟨h2.2, hnd⟩
        have hih := ih { db with active_agents := b.id :: db.active_agents } hnd2 hpre2
        have hmemiff : a.id ∈ ({ db with
            active_agents := b.id :: db.active_agents } : DB).active_agents ↔
            a.id ∈ db.active_agents := by
          simp [List.mem_cons, Ne.symm hbid]
        exact ⟨fun hmem => hih.1 (hmemiff.mpr hmem),
          fun hnmem => hih.2 (fun hcon => hnmem (hmemiff.mp hcon))⟩
      · rw [check_go_cons_skip resched db b (pre2 ++ a :: post) h1 h2]
        exact ih db hnd hpre2

/-- C6: for an agent transitioning active-to-inactive between two polls
(present in the Active-Agent Set, now computed inactive, appearing once
in the roster), the poll removes it from the set and invokes
`_reschedule_instances` for it exactly once; and a further poll in which
the agent is still inactive and no longer in the set neither puts it
back nor re-invokes rescheduling. -/
theorem check_agents_inactive_transition_once (db : DB) (pre post : List Agent)
    (a : Agent) (resched : Nat → Except Unit (Option Agent))
    (hok : ∀ u, resched u ≠ Except.error ())
    (halive : a.alive = false)
    (hnd : db.active_agents.Nodup)
    (hpre : ∀ b ∈ pre, b.id ≠ a.id)
    (hpost : ∀ b ∈ post, b.id ≠ a.id) :
    (a.id ∈ db.active_agents →
       a.id ∉ (check_agents_states db (pre ++ a :: post) resched).db.active_agents ∧
       countCalls a.id (check_agents_states db (pre ++ a :: post) resched).trace = 1) ∧
    (a.id ∉ db.active_agents →
       a.id ∉ (check_agents_states db (pre ++ a :: post) resched).db.active_agents ∧
       countCalls a.id (check_agents_states db (pre ++ a :: post) resched).trace = 0) :=
  check_go_inactive_once resched hok a post halive hpost pre db hnd hpre

/-- The transitioning agent of the C6 scenario (id 1, host 5, now
inactive). -/
def c6Agent : Agent := ⟨1, 5, false⟩

/-- Registry for the C6 scenario: agent 1 is in the Active-Agent Set and
hosts nothing. -/
def c6Db : DB := ⟨[], [1], [], [], [], [], []⟩

/-- A reschedule collaborator that declines every workload and never
raises. -/
def c6Resched : Nat → Except Unit (Option Agent) := fun _ => Except.ok none

/-- Witness for the C6 theorem at the concrete scenario: the poll removes
agent 1 from the set and invokes rescheduling for it exactly once. -/
theorem check_agents_inactive_transition_once_witness :
    1 ∉ (check_agents_states c6Db [c6Agent] c6Resched).db.active_agents ∧
    countCalls 1 (check_agents_states c6Db [c6Agent] c6Resched).trace = 1 :=
  (check_agents_inactive_transition_once c6Db [] [] c6Agent c6Resched
      (fun u h => by simp [c6Resched] at h) rfl (by decide)
      (fun b hb => absurd hb (List.not_mem_nil b))
      (fun b hb => absurd hb (List.not_mem_nil b))).1 (by decide)

/-- C9: for an agent transitioning inactive-to-active, the poll step for
that agent adds it to the Active-Agent Set and does nothing else: the
step reduces to the rest of the poll on the enlarged set, and taken
alone it emits no effect of any kind (no notification, no rescheduling)
and leaves every hosting assignment unchanged. -/
theorem check_agents_active_transition_frame (db : DB) (a : Agent)
    (rest : List Agent) (resched : Nat → Except Unit (Option Agent))
    (halive : a.alive = true) (hnmem : a.id ∉ db.active_agents) :
    check_agents_states db (a :: rest) resched =
      check_agents_states
        { db with active_agents := a.id :: db.active_agents } rest resched ∧
    (check_agents_states db [a] resched).db.active_agents =
      a.id :: db.active_agents ∧
    (check_agents_states db [a] resched).trace = [] ∧
    (check_agents_states db [a] resched).db.hosting = db.hosting ∧
    (check_agents_states db [a] resched).aborted = false := by
  simp only [check_agents_states]
  have hstep := check_go_cons_active resched db a rest ⟨halive, hnmem⟩
  have hstep1 := check_go_cons_active resched db a [] ⟨halive, hnmem⟩
  rw [hstep, hstep1]
  exact ⟨rfl, rfl, rfl, rfl, rfl⟩

/-- The recovering agent of the C9 scenario (id 2, host 7, now active). -/
def c9Agent : Agent := ⟨2, 7, true⟩

/-- Registry for the C9 scenario: agent 2 hosts loadbalancer 4 but is not
yet in the Active-Agent Set. -/
def c9Db : DB := ⟨[(4, ⟨2, 7, true⟩)], [], [4], [], [], [], []⟩

/-- A reschedule collaborator for the C9 witness (never consulted). -/
def c9Resched : Nat → Except Unit (Option Agent) := fun _ => Except.ok none

/-- Witness for the C9 theorem at the concrete scenario. -/
theorem check_agents_active_transition_frame_witness :
    (check_agents_states c9Db [c9Agent] c9Resched).db.active_agents =
      2 :: c9Db.active_agents ∧
    (check_agents_states c9Db [c9Agent] c9Resched).trace = [] ∧
    (check_agents_states c9Db [c9Agent] c9Resched).db.hosting = c9Db.hosting := by
  have h := check_agents_active_transition_frame c9Db c9Agent [] c9Resched rfl (by decide)
  exact ⟨h.2.1, h.2.2.1, h.2.2.2.1⟩
